import Mathlib

/-!
# Shallow embedding of the `blogicum` blog application

This file embeds the view-layer logic of the `blogicum` Django project
(`blog/views.py`) over a relational state given as lists of rows, and
proves the visibility, authorization and pagination properties stated
about it.

Conventions of the embedding:
* a queryset is a `List` of rows; `.filter(...)` is `List.filter`,
  `order_by("-pub_date")` is an explicit insertion sort on `pub_date`
  descending, `get_object_or_404` is `List.find?` with a 404 response on
  `none`;
* `timezone.now()` is a parameter `now : Int` (the timeline is `Int`);
* the requesting user is `Option User`: `none` is Django's
  `AnonymousUser`, whose `pk` is `None` and whose `username` is `""`;
* an HTTP response is the inductive `Response`; `reverse(...)` URLs are
  the inductive `Url`;
* a state-changing view is a function `DB → ... → Response × DB`.
-/

namespace Blogicum

/-- Modelled from the spec: `blog/models.py` is absent from the sources;
spec §3 lists `Category (title, slug, is_published)`.  The `pk` field is
the framework-supplied primary key. -/
structure Category where
  pk : Nat
  title : String
  slug : String
  is_published : Bool
deriving Repr, DecidableEq

/-- Modelled from the spec: the framework-provided `User` rows edited by
`ProfileForm` (`fields = ('username', 'first_name', 'last_name',
'email')` in `blog/forms.py`). -/
structure User where
  pk : Nat
  username : String
  first_name : String
  last_name : String
  email : String
deriving Repr, DecidableEq

/-- Modelled from the spec: `blog/models.py` is absent from the sources;
spec §3 lists `Post (title, text, pub_date, is_published, author,
category, location, image)`.  The `author` and `category` foreign keys
are carried inline, exactly as the views access them after
`select_related` (`post.author.pk`, `post.category.is_published`,
`post.category.slug`); the `location` and `image` fields are never read
by any view and are elided. -/
structure Post where
  pk : Nat
  title : String
  text : String
  pub_date : Int
  is_published : Bool
  author : User
  category : Category
deriving Repr, DecidableEq

/-- Modelled from the spec: `blog/models.py` is absent from the sources;
spec §3 lists `Comment (text, author, post, created_at)`.  The `post`
foreign key is kept as the post's `pk`; `created_at` is never read by a
view and is elided. -/
structure Comment where
  pk : Nat
  text : String
  author : User
  post_pk : Nat
deriving Repr, DecidableEq

/-- The relational state: one list of rows per table. -/
structure DB where
  posts : List Post
  comments : List Comment
  categories : List Category
  users : List User
deriving Repr, DecidableEq

/-- Target of a `redirect(...)` / `reverse(...)`: the named routes of
`blog/urls.py` that the views under study redirect to, plus the login
page that `LoginRequiredMixin` redirects to. -/
inductive Url where
  | postDetail (post_id : Nat)
  | profile (username : String)
  | login
deriving Repr, DecidableEq

/-- An HTTP response, abstracted to what the claims observe: a rendered
page carrying the posts of its context, a 404, or a redirect. -/
inductive Response where
  | ok (posts : List Post)
  | notFound
  | redirect (target : Url)
deriving Repr, DecidableEq

/-- `true` exactly on `Response.redirect _`. -/
def Response.isRedirect : Response → Bool
  | .redirect _ => true
  | _ => false

/-- `request.user.pk`: `None` for `AnonymousUser`. -/
def requestUserPk : Option User → Option Nat
  | none => none
  | some u => some u.pk

/-- `request.user.username`: `""` for `AnonymousUser`. -/
def requestUsername : Option User → String
  | none => ""
  | some u => u.username

/-- Insert a post into a list sorted by `pub_date` descending. -/
def insertDesc (p : Post) : List Post → List Post
  | [] => [p]
  | q :: l => if q.pub_date ≤ p.pub_date then p :: q :: l else q :: insertDesc p l

/-- `order_by("-pub_date")`: sort newest first (insertion sort). -/
def sortByPubDateDesc : List Post → List Post
  | [] => []
  | p :: l => insertDesc p (sortByPubDateDesc l)

/-- The `Count("comments")` annotation of `PostListMixin.get_queryset`:
the number of comments attached to `p`. -/
def comment_count (db : DB) (p : Post) : Nat :=
  (db.comments.filter (fun c => c.post_pk = p.pk)).length

/-- `PostListMixin.get_queryset` (views.py 130-141): all posts, ordered
by `pub_date` descending.  The `comment_count` annotation is the
function `comment_count`; `select_related` is a no-op in this embedding
because foreign keys are carried inline. -/
def postListMixin_get_queryset (db : DB) : List Post :=
  sortByPubDateDesc db.posts

/-- The filter of `PostListView.get_queryset` (views.py 154-158):
`pub_date__lt=timezone.now(), is_published=True,
category__is_published=True`. -/
def publishedFilter (now : Int) (p : Post) : Bool :=
  decide (p.pub_date < now) && p.is_published && p.category.is_published

/-- `PostListView.get_queryset` (views.py 149-160): the index listing's
queryset. -/
def postListView_get_queryset (db : DB) (now : Int) : List Post :=
  (postListMixin_get_queryset db).filter (publishedFilter now)

/-- `CategoryListlView.dispatch` (views.py 169-176): look up the
category by slug among published categories;
`get_object_or_404(Category.objects.filter(is_published=True), slug=...)`. -/
def categoryListView_find_category (db : DB) (slug : String) : Option Category :=
  (db.categories.filter (fun c => c.is_published)).find? (fun c => c.slug = slug)

/-- `CategoryListlView.get_queryset` (views.py 178-183): the index
queryset further filtered by `category__slug=self.category.slug`; the
found category's slug equals the requested slug, so the filter is
phrased on the slug directly. -/
def categoryListView_get_queryset (db : DB) (now : Int) (slug : String) : List Post :=
  (postListView_get_queryset db now).filter (fun p => p.category.slug = slug)

/-- `CategoryListlView` as a whole (dispatch then queryset): 404 when no
published category carries the slug, otherwise the category page. -/
def categoryListView (db : DB) (now : Int) (slug : String) : Response :=
  match categoryListView_find_category db slug with
  | none => .notFound
  | some cat => .ok (categoryListView_get_queryset db now cat.slug)

/-- `ProfileListView.get_queryset` (views.py 203-215).  Lines 210-214
call `queryset.filter(...)` without assigning the result, so the
restriction to published posts for non-owner viewers is computed and
discarded; the unrestricted queryset is returned in both branches,
exactly as the source does. -/
def profileListView_get_queryset (db : DB) (now : Int) (requester : Option User)
    (username : String) : List Post :=
  let queryset := (postListMixin_get_queryset db).filter
    (fun p => p.author.username = username)
  if requestUsername requester ≠ username then
    let _discarded := queryset.filter (publishedFilter now)
    queryset
  else
    queryset

/-- `PostDetailView.dispatch` (views.py 42-59): fetch the post by pk
(404 when absent); when it is unpublished, future-dated, or in an
unpublished category, a non-author gets a 404; otherwise the page. -/
def postDetailView (db : DB) (now : Int) (requester : Option User)
    (post_id : Nat) : Response :=
  match db.posts.find? (fun p => p.pk = post_id) with
  | none => .notFound
  | some post =>
    if !post.is_published || decide (now < post.pub_date)
        || !post.category.is_published then
      if requestUserPk requester ≠ some post.author.pk then
        .notFound
      else
        .ok [post]
    else
      .ok [post]

/-- `PostUpdateView` (views.py 98-105) with `IsAuthorMixin` (20-29) and
`PostEditMixin`/`LoginRequiredMixin` (70-76).  Method resolution order:
`IsAuthorMixin.dispatch` runs first, so the author check (author pk
versus `request.user.pk`) precedes the login check; a non-author — the
anonymous user included — is redirected to the post's detail page.  On
success the post's form fields are replaced and the view redirects to
the detail page. -/
def postUpdateView (db : DB) (requester : Option User) (post_id : Nat)
    (newTitle newText : String) (newPubDate : Int) (newCat : Category) :
    Response × DB :=
  match db.posts.find? (fun p => p.pk = post_id) with
  | none => (.notFound, db)
  | some post =>
    if some post.author.pk ≠ requestUserPk requester then
      (.redirect (.postDetail post.pk), db)
    else
      match requester with
      | none => (.redirect .login, db)
      | some _ =>
        let post' := { post with title := newTitle, text := newText, pub_date := newPubDate, category := newCat }
        let posts' := db.posts.map (fun q => if q.pk = post_id then post' else q)
        (.redirect (.postDetail post.pk), { db with posts := posts' })

/-- `PostDeleteView` (views.py 108-121) with `IsAuthorMixin` first in
the method resolution order, as for `postUpdateView`.  On success the
post row is removed and the view redirects to the author's profile. -/
def postDeleteView (db : DB) (requester : Option User) (post_id : Nat) :
    Response × DB :=
  match db.posts.find? (fun p => p.pk = post_id) with
  | none => (.notFound, db)
  | some post =>
    if some post.author.pk ≠ requestUserPk requester then
      (.redirect (.postDetail post.pk), db)
    else
      match requester with
      | none => (.redirect .login, db)
      | some u =>
        let posts' := db.posts.filter (fun q => !(q.pk = post_id))
        (.redirect (.profile u.username), { db with posts := posts' })

/-- `CommentCreateView` (views.py 244-264): `LoginRequiredMixin` first,
then `dispatch` fetches the post by pk with `get_object_or_404(Post,
pk=...)` — no visibility filter — and `form_valid` stores a comment
whose author is the requester and whose post is the fetched post.
`newPk` is the database-assigned key of the new row. -/
def commentCreateView (db : DB) (requester : Option User) (post_id : Nat)
    (text : String) (newPk : Nat) : Response × DB :=
  match requester with
  | none => (.redirect .login, db)
  | some u =>
    match db.posts.find? (fun p => p.pk = post_id) with
    | none => (.notFound, db)
    | some post =>
      let c : Comment := { pk := newPk, text := text, author := u, post_pk := post.pk }
      (.redirect (.postDetail post.pk), { db with comments := db.comments ++ [c] })

/-- `CommentUpdateView` (views.py 287-292): `LoginRequiredMixin`, then
`IsAuthorMixin.dispatch` — which fetches the comment by `comment_id`
(404 when absent) and, for a non-author, issues
`redirect("blog:post_detail", post_id=self.get_object().pk)`, i.e. with
the COMMENT's pk as `post_id` — then `CommentMixin.dispatch` fetches the
post named by the URL's `post_id` (404 when absent), and the update
replaces the comment's text and redirects to the detail page of the
comment's own post (`get_success_url`, views.py 280-284). -/
def commentUpdateView (db : DB) (requester : Option User)
    (url_post_id comment_id : Nat) (newText : String) : Response × DB :=
  match requester with
  | none => (.redirect .login, db)
  | some u =>
    match db.comments.find? (fun c => c.pk = comment_id) with
    | none => (.notFound, db)
    | some c =>
      if some c.author.pk ≠ some u.pk then
        (.redirect (.postDetail c.pk), db)
      else
        match db.posts.find? (fun p => p.pk = url_post_id) with
        | none => (.notFound, db)
        | some _ =>
          let c' := { c with text := newText }
          let comments' := db.comments.map (fun d => if d.pk = comment_id then c' else d)
          (.redirect (.postDetail c.post_pk), { db with comments := comments' })

/-- `CommentDeleteView` (views.py 295-300): same dispatch chain as
`commentUpdateView`; on success the comment row is removed and the view
redirects to the detail page of the comment's post. -/
def commentDeleteView (db : DB) (requester : Option User)
    (url_post_id comment_id : Nat) : Response × DB :=
  match requester with
  | none => (.redirect .login, db)
  | some u =>
    match db.comments.find? (fun c => c.pk = comment_id) with
    | none => (.notFound, db)
    | some c =>
      if some c.author.pk ≠ some u.pk then
        (.redirect (.postDetail c.pk), db)
      else
        match db.posts.find? (fun p => p.pk = url_post_id) with
        | none => (.notFound, db)
        | some _ =>
          let comments' := db.comments.filter (fun d => !(d.pk = comment_id))
          (.redirect (.postDetail c.post_pk), { db with comments := comments' })

/-- `ProfileUpdateView` (views.py 226-241): `get_object` returns
`self.request.user` — the route `profile/edit/` carries no user
parameter and no request parameter is consulted — so the form updates
the requesting user's own row only, then redirects to their profile. -/
def profileUpdateView (db : DB) (requester : Option User)
    (newUsername newFirst newLast newEmail : String) : Response × DB :=
  match requester with
  | none => (.redirect .login, db)
  | some u =>
    let u' := { u with username := newUsername, first_name := newFirst, last_name := newLast, email := newEmail }
    let users' := db.users.map (fun v => if v.pk = u.pk then u' else v)
    (.redirect (.profile u'.username), { db with users := users' })

/-- `ListView` pagination with `paginate_by` posts per page (views.py
128: `paginate_by = 10`): page `n` (1-indexed) of a queryset is its
slice from `(n-1)*per` to `n*per`. -/
def paginate (per : Nat) (l : List Post) (page : Nat) : List Post :=
  (l.drop ((page - 1) * per)).take per

/-- Pages `1` to `n` of a queryset, laid end to end. -/
def pagesConcat (per : Nat) (l : List Post) (n : Nat) : List Post :=
  ((List.range n).map (fun k => paginate per l (k + 1))).flatten

/-! ## Concrete fixtures used by witnesses and counterexamples -/

/-- A published category. -/
def catPub : Category :=
  { pk := 1, title := "General", slug := "general", is_published := true }

/-- A first user. -/
def alice : User :=
  { pk := 1, username := "alice", first_name := "A", last_name := "L", email := "a@x" }

/-- A second user, author of nothing. -/
def bob : User :=
  { pk := 2, username := "bob", first_name := "B", last_name := "M", email := "b@x" }

/-- A published post of `alice` with `pub_date = 5`. -/
def alicePost : Post :=
  { pk := 1, title := "hello", text := "body", pub_date := 5,
    is_published := true, author := alice, category := catPub }

/-- An unpublished (hidden) post of `alice`. -/
def hiddenPost : Post :=
  { pk := 2, title := "draft", text := "body", pub_date := 5,
    is_published := false, author := alice, category := catPub }

/-- A comment of `alice` on post `1`, with `pk = 7 ≠ 1`. -/
def aliceComment : Comment :=
  { pk := 7, text := "hi", author := alice, post_pk := 1 }

/-- The concrete state used by witnesses: two users, one published and
one hidden post of `alice`, one comment. -/
def exampleDB : DB :=
  { posts := [alicePost, hiddenPost], comments := [aliceComment],
    categories := [catPub], users := [alice, bob] }

/-! ## Helper lemmas -/

/-- Membership is invariant under the descending insertion. -/
theorem mem_insertDesc (q p : Post) (l : List Post) :
    q ∈ insertDesc p l ↔ q = p ∨ q ∈ l := by
  induction l with
  | nil => simp [insertDesc]
  | cons r l ih =>
    by_cases h : r.pub_date ≤ p.pub_date
    · simp [insertDesc, h]
    · simp [insertDesc, h, ih]
      tauto

/-- Membership is invariant under `order_by("-pub_date")`. -/
theorem mem_sortByPubDateDesc (q : Post) (l : List Post) :
    q ∈ sortByPubDateDesc l ↔ q ∈ l := by
  induction l with
  | nil => simp [sortByPubDateDesc]
  | cons p l ih => simp [sortByPubDateDesc, mem_insertDesc, ih]

/-- Membership in the index queryset, unfolded to the three visibility
conditions of views.py 154-158. -/
theorem mem_postListView_get_queryset (db : DB) (now : Int) (p : Post) :
    p ∈ postListView_get_queryset db now ↔
      p ∈ db.posts ∧ p.is_published = true ∧ p.pub_date < now ∧
        p.category.is_published = true := by
  simp [postListView_get_queryset, postListMixin_get_queryset, publishedFilter,
        List.mem_filter, mem_sortByPubDateDesc]
  tauto

/-- The category lookup of `CategoryListlView.dispatch` fails exactly
when no published category bears the slug. -/
theorem find_category_eq_none_iff (db : DB) (slug : String) :
    categoryListView_find_category db slug = none ↔
      ¬ ∃ c ∈ db.categories, c.slug = slug ∧ c.is_published = true := by
  simp [categoryListView_find_category, List.find?_eq_none, List.mem_filter]
  constructor
  · intro h c hc hs
    cases hpub : c.is_published
    · rfl
    · exact absurd hs (h c hc hpub)
  · intro h c hc hpub hs
    rw [h c hc hs] at hpub
    exact Bool.false_ne_true hpub

/-- The category view answers 404 exactly when the category lookup
fails. -/
theorem categoryListView_eq_notFound_iff (db : DB) (now : Int) (slug : String) :
    categoryListView db now slug = Response.notFound ↔
      categoryListView_find_category db slug = none := by
  unfold categoryListView
  cases h : categoryListView_find_category db slug <;> simp

/-- Every page holds at most `per` posts. -/
theorem paginate_length_le (per : Nat) (l : List Post) (page : Nat) :
    (paginate per l page).length ≤ per := by
  simp [paginate]

/-- Pages `1..n` laid end to end are exactly the first `n * per` posts
of the queryset. -/
theorem pagesConcat_eq_take (per : Nat) (l : List Post) (n : Nat) :
    pagesConcat per l n = l.take (n * per) := by
  induction n with
  | zero => simp [pagesConcat]
  | succ n ih =>
    have h1 : pagesConcat per l (n + 1) = pagesConcat per l n ++ paginate per l (n + 1) := by
      simp [pagesConcat, List.range_succ]
    rw [h1, ih, paginate, Nat.add_sub_cancel, Nat.succ_mul, List.take_add]

/-- The users list after a profile edit: the requester's own row is
replaced, every other row is mapped to itself. -/
theorem profileUpdateView_users (db : DB) (u : User) (nu nf nl ne : String) :
    (profileUpdateView db (some u) nu nf nl ne).2.users =
      db.users.map (fun v => if v.pk = u.pk then { u with username := nu, first_name := nf, last_name := nl, email := ne } else v) := rfl

/-! ## Claims -/

/-- C1: the spec claims no post-returning operation shows a hidden post
to a non-author, but `ProfileListView.get_queryset` (views.py 210-214)
discards the result of its `queryset.filter(...)` call, so the profile
listing returned to a non-author (here the anonymous user) contains an
unpublished post. -/
theorem C1_profile_listing_leaks_hidden_post :
    hiddenPost.is_published = false ∧
    requestUsername none ≠ "alice" ∧
    hiddenPost ∈ profileListView_get_queryset exampleDB 100 none "alice" :=
  ⟨rfl, by decide, by decide⟩

/-- C2 (counterexample): the claim says a post whose `pub_date` equals
the current time is included in the index listing; at `now = 5` the
post `alicePost` is published, in a published category, has
`pub_date = 5`, and is nevertheless absent — `PostListView` filters
with the strict `pub_date__lt`. -/
theorem C2_counterexample :
    alicePost ∈ exampleDB.posts ∧ alicePost.is_published = true ∧
    alicePost.category.is_published = true ∧ alicePost.pub_date = (5 : Int) ∧
    alicePost ∉ postListView_get_queryset exampleDB 5 :=
  ⟨by decide, rfl, rfl, rfl, by decide⟩

/-- C2 (amended): the index listing returns exactly the posts that are
published, have `pub_date` strictly earlier than the current time, and
whose category is published; a post with `pub_date` equal to the
current time is excluded. -/
theorem C2_index_listing_exact (db : DB) (now : Int) (p : Post) :
    p ∈ postListView_get_queryset db now ↔
      p ∈ db.posts ∧ p.is_published = true ∧ p.pub_date < now ∧
        p.category.is_published = true :=
  mem_postListView_get_queryset db now p

/-- C3: the claim says a non-author's comment edit/delete request is
redirected to the detail page of the post the comment belongs to, but
`IsAuthorMixin.dispatch` (views.py 27) passes `self.get_object().pk` —
the COMMENT's pk — as `post_id`: for the comment with pk `7` on post
`1`, the authenticated non-author `bob` is redirected to the detail
page of "post 7", not of post 1. -/
theorem C3_comment_redirect_uses_comment_pk :
    aliceComment.pk = 7 ∧ aliceComment.post_pk = 1 ∧ (7 : Nat) ≠ 1 ∧
    (commentUpdateView exampleDB (some bob) 1 7 "t").1 = Response.redirect (Url.postDetail 7) ∧
    (commentDeleteView exampleDB (some bob) 1 7).1 = Response.redirect (Url.postDetail 7) :=
  ⟨rfl, rfl, by decide, by decide, by decide⟩

/-- C4: a post whose `pub_date` is strictly later than the request time
is absent from the index listing (for every requester — the index
queryset does not depend on the user, so in particular for anonymous
ones). -/
theorem C4_future_post_absent_from_index (db : DB) (now : Int) (p : Post)
    (h : now < p.pub_date) : p ∉ postListView_get_queryset db now := by
  rw [mem_postListView_get_queryset]
  rintro ⟨-, -, hlt, -⟩
  omega

/-- C4 witness: at `now = 3` the post with `pub_date = 5` is future
and absent from the index listing. -/
theorem C4_witness :
    (3 : Int) < alicePost.pub_date ∧ alicePost ∉ postListView_get_queryset exampleDB 3 :=
  ⟨by decide, C4_future_post_absent_from_index exampleDB 3 alicePost (by decide)⟩

/-- C5: the category listing responds 404 exactly when no category with
the requested slug exists among the published categories — i.e. when
the slug names no category or only an unpublished one. -/
theorem C5_category_listing_404_iff (db : DB) (now : Int) (slug : String) :
    categoryListView db now slug = Response.notFound ↔
      ¬ ∃ c ∈ db.categories, c.slug = slug ∧ c.is_published = true := by
  rw [categoryListView_eq_notFound_iff, find_category_eq_none_iff]

/-- C6: an edit or delete request on a post, or on a comment, whose
author is not the requester answers with a redirect and leaves the
state unchanged.  The post conjunct holds whatever the comments table
contains, and the comment conjunct whatever the posts table contains:
each carries only its own premises. -/
theorem C6_non_author_edit_delete_preserves_state (db : DB) (requester : Option User)
    (pid cid : Nat) (t : String) (d : Int) (cat : Category) :
    (∀ p : Post, db.posts.find? (fun q => q.pk = pid) = some p →
      some p.author.pk ≠ requestUserPk requester →
      ((postUpdateView db requester pid t t d cat).1.isRedirect = true ∧
        (postUpdateView db requester pid t t d cat).2 = db) ∧
      ((postDeleteView db requester pid).1.isRedirect = true ∧
        (postDeleteView db requester pid).2 = db)) ∧
    (∀ c : Comment, db.comments.find? (fun q => q.pk = cid) = some c →
      some c.author.pk ≠ requestUserPk requester →
      ((commentUpdateView db requester pid cid t).1.isRedirect = true ∧
        (commentUpdateView db requester pid cid t).2 = db) ∧
      ((commentDeleteView db requester pid cid).1.isRedirect = true ∧
        (commentDeleteView db requester pid cid).2 = db)) := by
  constructor
  · intro p hpf hpa
    cases requester with
    | none =>
      simp [postUpdateView, postDeleteView, hpf, requestUserPk, Response.isRedirect]
    | some u =>
      simp only [requestUserPk] at hpa
      simp [postUpdateView, postDeleteView, hpf, hpa, requestUserPk, Response.isRedirect]
  · intro c hcf hca
    cases requester with
    | none =>
      simp [commentUpdateView, commentDeleteView, requestUserPk, Response.isRedirect]
    | some u =>
      simp only [requestUserPk] at hca
      simp [commentUpdateView, commentDeleteView, hcf, hca, requestUserPk, Response.isRedirect]

/-- C6 witness: `bob` (pk 2) is not the author of post 1 nor of comment
7; all four requests redirect and leave `exampleDB` unchanged. -/
theorem C6_witness :
    exampleDB.posts.find? (fun q => q.pk = 1) = some alicePost ∧
    some alicePost.author.pk ≠ requestUserPk (some bob) ∧
    exampleDB.comments.find? (fun q => q.pk = 7) = some aliceComment ∧
    some aliceComment.author.pk ≠ requestUserPk (some bob) ∧
    (((postUpdateView exampleDB (some bob) 1 "t" "t" 0 catPub).1.isRedirect = true ∧
      (postUpdateView exampleDB (some bob) 1 "t" "t" 0 catPub).2 = exampleDB) ∧
     ((postDeleteView exampleDB (some bob) 1).1.isRedirect = true ∧
      (postDeleteView exampleDB (some bob) 1).2 = exampleDB)) ∧
    (((commentUpdateView exampleDB (some bob) 1 7 "t").1.isRedirect = true ∧
      (commentUpdateView exampleDB (some bob) 1 7 "t").2 = exampleDB) ∧
     ((commentDeleteView exampleDB (some bob) 1 7).1.isRedirect = true ∧
      (commentDeleteView exampleDB (some bob) 1 7).2 = exampleDB)) :=
  ⟨by decide, by decide, by decide, by decide,
   (C6_non_author_edit_delete_preserves_state exampleDB (some bob) 1 7 "t" 0 catPub).1
     alicePost (by decide) (by decide),
   (C6_non_author_edit_delete_preserves_state exampleDB (some bob) 1 7 "t" 0 catPub).2
     aliceComment (by decide) (by decide)⟩

/-- C7: every page of the index, category and profile listings holds at
most 10 posts, and pages `1..n` laid end to end are exactly the first
`10 * n` posts of the queryset — so posts beyond the first 10 appear
exactly on the subsequent pages. -/
theorem C7_listing_pages_bounded_and_chunked (db : DB) (now : Int)
    (requester : Option User) (username slug : String) (page n : Nat) :
    ((paginate 10 (postListView_get_queryset db now) page).length ≤ 10 ∧
     (paginate 10 (categoryListView_get_queryset db now slug) page).length ≤ 10 ∧
     (paginate 10 (profileListView_get_queryset db now requester username) page).length ≤ 10) ∧
    (pagesConcat 10 (postListView_get_queryset db now) n =
        (postListView_get_queryset db now).take (n * 10) ∧
     pagesConcat 10 (categoryListView_get_queryset db now slug) n =
        (categoryListView_get_queryset db now slug).take (n * 10) ∧
     pagesConcat 10 (profileListView_get_queryset db now requester username) n =
        (profileListView_get_queryset db now requester username).take (n * 10)) :=
  ⟨⟨paginate_length_le _ _ _, paginate_length_le _ _ _, paginate_length_le _ _ _⟩,
   pagesConcat_eq_take _ _ _, pagesConcat_eq_take _ _ _, pagesConcat_eq_take _ _ _⟩

/-- C8: an anonymous edit or delete request on an existing post is
answered by `IsAuthorMixin` — which runs before `LoginRequiredMixin` in
the method resolution order — with a redirect to that post's detail
page, not with a redirect to the login page. -/
theorem C8_anonymous_post_edit_redirects_to_detail (db : DB) (pid : Nat)
    (t s : String) (d : Int) (cat : Category) (p : Post)
    (hpf : db.posts.find? (fun q => q.pk = pid) = some p) :
    (postUpdateView db none pid t s d cat).1 = Response.redirect (Url.postDetail p.pk) ∧
    (postDeleteView db none pid).1 = Response.redirect (Url.postDetail p.pk) ∧
    Response.redirect (Url.postDetail p.pk) ≠ Response.redirect Url.login := by
  refine ⟨?_, ?_, by simp⟩
  · simp [postUpdateView, hpf, requestUserPk]
  · simp [postDeleteView, hpf, requestUserPk]

/-- C8 witness: the anonymous edit and delete requests on post 1 both
redirect to post 1's detail page. -/
theorem C8_witness :
    exampleDB.posts.find? (fun q => q.pk = 1) = some alicePost ∧
    ((postUpdateView exampleDB none 1 "t" "s" 0 catPub).1 = Response.redirect (Url.postDetail alicePost.pk) ∧
     (postDeleteView exampleDB none 1).1 = Response.redirect (Url.postDetail alicePost.pk) ∧
     Response.redirect (Url.postDetail alicePost.pk) ≠ Response.redirect Url.login) :=
  ⟨by decide, C8_anonymous_post_edit_redirects_to_detail exampleDB 1 "t" "s" 0 catPub alicePost (by decide)⟩

/-- C9: a comment-creation request by an authenticated user on any
existing post — no visibility check is applied — succeeds: it appends a
comment whose author is the requester and whose post is that post,
leaves the posts table unchanged, and redirects to the post's detail
page. -/
theorem C9_comment_creation_ignores_visibility (db : DB) (u : User)
    (pid newPk : Nat) (text : String) (p : Post)
    (hpf : db.posts.find? (fun q => q.pk = pid) = some p) :
    (commentCreateView db (some u) pid text newPk).1 = Response.redirect (Url.postDetail p.pk) ∧
    (commentCreateView db (some u) pid text newPk).2.comments = db.comments ++ [{ pk := newPk, text := text, author := u, post_pk := p.pk }] ∧
    (commentCreateView db (some u) pid text newPk).2.posts = db.posts := by
  simp [commentCreateView, hpf]

/-- C9 witness: `bob` comments on the hidden (unpublished) post 2 and
the comment is stored with `bob` as author and post 2 as its post. -/
theorem C9_witness :
    exampleDB.posts.find? (fun q => q.pk = 2) = some hiddenPost ∧
    hiddenPost.is_published = false ∧
    ((commentCreateView exampleDB (some bob) 2 "hi" 99).1 = Response.redirect (Url.postDetail hiddenPost.pk) ∧
     (commentCreateView exampleDB (some bob) 2 "hi" 99).2.comments = exampleDB.comments ++ [{ pk := 99, text := "hi", author := bob, post_pk := hiddenPost.pk }] ∧
     (commentCreateView exampleDB (some bob) 2 "hi" 99).2.posts = exampleDB.posts) :=
  ⟨by decide, rfl,
   C9_comment_creation_ignores_visibility exampleDB bob 2 99 "hi" hiddenPost (by decide)⟩

/-- C10: a profile edit by an authenticated user can modify only that
user's own row — membership of any user row with a different pk is
unchanged — and the posts, comments and categories tables are
untouched, whatever form data is submitted. -/
theorem C10_profile_edit_touches_only_own_row (db : DB) (u : User)
    (nu nf nl ne : String) (v : User) (hv : v.pk ≠ u.pk) :
    (v ∈ (profileUpdateView db (some u) nu nf nl ne).2.users ↔ v ∈ db.users) ∧
    (profileUpdateView db (some u) nu nf nl ne).2.posts = db.posts ∧
    (profileUpdateView db (some u) nu nf nl ne).2.comments = db.comments ∧
    (profileUpdateView db (some u) nu nf nl ne).2.categories = db.categories := by
  refine ⟨?_, rfl, rfl, rfl⟩
  rw [profileUpdateView_users]
  constructor
  · intro hmem
    obtain ⟨w, hw, hwe⟩ := List.mem_map.mp hmem
    by_cases hwu : w.pk = u.pk
    · refine absurd ?_ hv
      rw [← hwe, if_pos hwu]
    · rw [if_neg hwu] at hwe
      exact hwe ▸ hw
  · intro hmem
    exact List.mem_map.mpr ⟨v, hmem, if_neg hv⟩

/-- C10 witness: `bob` edits his profile; `alice` (a different pk) is
still a user row, and the other tables are unchanged. -/
theorem C10_witness :
    alice.pk ≠ bob.pk ∧
    ((alice ∈ (profileUpdateView exampleDB (some bob) "b2" "B2" "M2" "e2").2.users ↔
        alice ∈ exampleDB.users) ∧
     (profileUpdateView exampleDB (some bob) "b2" "B2" "M2" "e2").2.posts = exampleDB.posts ∧
     (profileUpdateView exampleDB (some bob) "b2" "B2" "M2" "e2").2.comments = exampleDB.comments ∧
     (profileUpdateView exampleDB (some bob) "b2" "B2" "M2" "e2").2.categories = exampleDB.categories) :=
  ⟨by decide, C10_profile_edit_touches_only_own_row exampleDB bob "b2" "B2" "M2" "e2" alice (by decide)⟩

end Blogicum
